import Mathlib

/-
  Verification of the boomerang Messenger-bot library.

  Shallow embedding of the Python source:
    * `boomerang/events.py`   — inbound event decode (`Events` namespace)
    * `boomerang/buttons.py`  — button construction and encode (`Buttons`)
    * `boomerang/server.py`   — webhook dispatcher and attachment hosting
                                (`Server` namespace)
    * the outbound message model of `boomerang/messages.py` exercised by
      `tests/test_messages.py` is absent from this snapshot of the source and
      is modelled from the specification (`SpecMessages` namespace).

  Python JSON values are embedded as the inductive `Json` (JSON numbers are
  modelled as integers: no claim performs arithmetic on a numeric field, so
  numeric leaves are opaque data here).  Python exceptions are embedded as
  `Except PyError`; each `from_json` / constructor / dispatcher function is a
  fail-fast `do` chain mirroring the order of dictionary accesses in the
  source.
-/

namespace Boomerang

/-! ## JSON values and the Python dictionary operations used by the source -/

inductive Json where
  | null
  | bool (b : Bool)
  | num (n : Int)
  | str (s : String)
  | arr (elems : List Json)
  | obj (fields : List (String × Json))

/-- Python exceptions raised by the embedded code. -/
inductive PyError where
  | keyError (key : String)
  | typeError
  | attributeError
  | valueError
  | boomerangException (msg : String)
deriving DecidableEq

/-- First-match association lookup; a string-keyed association list models a
Python dict, whose keys are unique, so first-match agrees with dict lookup. -/
def assocFind {α : Type} : List (String × α) → String → Option α
  | [], _ => none
  | (k, v) :: rest, key => if k = key then some v else assocFind rest key

/-- Pure lookup of a key in a JSON object (`none` on non-objects). -/
def Json.lookup : Json → String → Option Json
  | .obj fields, key => assocFind fields key
  | _, _ => none

def Json.isObj : Json → Bool
  | .obj _ => true
  | _ => false

/-- The keys of a JSON object. -/
def Json.keys : Json → List String
  | .obj fields => fields.map Prod.fst
  | _ => []

/-- Python `==` between a JSON value and a string literal (equality with a
non-string value is `False`). -/
def Json.eqStr : Json → String → Bool
  | .str s, t => s = t
  | _, _ => false

/-- Whether the character list `needle` occurs as a prefix of `hay`. -/
def charsPrefix : List Char → List Char → Bool
  | [], _ => true
  | _ :: _, [] => false
  | a :: as, b :: bs => a = b && charsPrefix as bs

/-- Whether the character list `needle` occurs contiguously in `hay`. -/
def charsSub (needle : List Char) : List Char → Bool
  | [] => needle.isEmpty
  | c :: rest => charsPrefix needle (c :: rest) || charsSub needle rest

/-- Python `needle in hay` for strings: substring containment. -/
def pyInStr (needle hay : String) : Bool := charsSub needle.data hay.data

/-- Python subscript `j[key]`: `KeyError` on a missing key, `TypeError` when
`j` is not subscriptable by a string. -/
def Json.index (j : Json) (key : String) : Except PyError Json :=
  match j with
  | .obj fields =>
    match assocFind fields key with
    | some v => .ok v
    | none => .error (.keyError key)
  | _ => .error .typeError

/-- Python membership `key in j`: dict key test on objects, substring test on
strings, element membership on lists, `TypeError` otherwise. -/
def Json.hasKey (j : Json) (key : String) : Except PyError Bool :=
  match j with
  | .obj fields => .ok (assocFind fields key).isSome
  | .str s => .ok (pyInStr key s)
  | .arr elems => .ok (elems.any (fun e => e.eqStr key))
  | _ => .error .typeError

/-- Python `j.get(key, default)`: `AttributeError` when `j` is not a dict. -/
def Json.get (j : Json) (key : String) (default : Json) : Except PyError Json :=
  match j with
  | .obj fields => .ok ((assocFind fields key).getD default)
  | _ => .error .attributeError

/-- Python iteration `for x in j`: the elements of a list, the keys of a
dict, the one-character strings of a string, `TypeError` otherwise. -/
def Json.iter : Json → Except PyError (List Json)
  | .arr elems => .ok elems
  | .obj fields => .ok (fields.map (fun f => .str f.1))
  | .str s => .ok (s.data.map (fun c => .str c.toString))
  | _ => .error .typeError

/-- The numeric value of a list of decimal digit characters (`none` when the
list is empty or holds a non-digit). -/
def digitsToNat : List Char → Option Nat
  | [] => none
  | cs => cs.foldl (fun acc c =>
      match acc with
      | none => none
      | some n => if c.isDigit then some (n * 10 + (c.toNat - 48)) else none)
      (some 0)

/-- Python `int(s)` on a string: optional surrounding whitespace, optional
sign, decimal digits; `none` models `ValueError`. -/
def pyStrToInt (s : String) : Option Int :=
  let cs := ((s.data.dropWhile Char.isWhitespace).reverse.dropWhile
              Char.isWhitespace).reverse
  match cs with
  | '-' :: ds => (digitsToNat ds).map (fun n => -(n : Int))
  | '+' :: ds => (digitsToNat ds).map (fun n => (n : Int))
  | ds => (digitsToNat ds).map Int.ofNat

/-- Python `int(j)` on a decoded JSON value. -/
def pyInt (j : Json) : Except PyError Int :=
  match j with
  | .num n => .ok n
  | .bool b => .ok (if b then 1 else 0)
  | .str s =>
    match pyStrToInt s with
    | some n => .ok n
    | none => .error .valueError
  | _ => .error .typeError

/-! ## `boomerang/events.py` — inbound event decode -/

namespace Events

/-- `events.QuickReply` (inbound echo of a quick-reply payload). -/
structure QuickReply where
  payload : Json

/-- `events.QuickReply.from_json`. -/
def QuickReply.from_json (json : Json) : Except PyError QuickReply := do
  let p ← json.index "payload"
  pure ⟨p⟩

/-- `events.MediaAttachment`. -/
structure MediaAttachment where
  media_type : Json
  url : Json

/-- `events.MediaAttachment.from_json`. -/
def MediaAttachment.from_json (json : Json) : Except PyError MediaAttachment := do
  let t ← json.index "type"
  let payload ← json.index "payload"
  let u ← payload.index "url"
  pure ⟨t, u⟩

/-- `events.LocationAttachment`: the constructor stores its first argument in
`latitude` and its second in `longitude`. -/
structure LocationAttachment where
  latitude : Json
  longitude : Json

/-- `events.LocationAttachment.from_json`. -/
def LocationAttachment.from_json (json : Json) : Except PyError LocationAttachment := do
  let payload ← json.index "payload"
  let coords ← payload.index "coordinates"
  let lat ← coords.index "lat"
  let lng ← coords.index "long"
  pure ⟨lat, lng⟩

/-- An element of `MessageReceived.attachments`. -/
inductive Attachment where
  | media (m : MediaAttachment)
  | location (l : LocationAttachment)

/-- The body of the attachment loop in `events.MessageReceived.from_json`:
entries whose `type` field equals `"location"` go to
`LocationAttachment.from_json`, every other entry to
`MediaAttachment.from_json`. -/
def decodeAttachment (attachment : Json) : Except PyError Attachment := do
  let t ← attachment.index "type"
  if t.eqStr "location" then
    let l ← LocationAttachment.from_json attachment
    pure (.location l)
  else
    let m ← MediaAttachment.from_json attachment
    pure (.media m)

/-- `events.MessageReceived`. -/
structure MessageReceived where
  user_id : Int
  timestamp : Json
  text : Json
  attachments : List Attachment
  quick_reply : Option QuickReply
  message_id : Json
  sequence_position : Json

/-- The quick-reply conversion at the head of
`events.MessageReceived.from_json`: decode `json.quick_reply` when the key
is present, otherwise `None`. -/
def decodeQuickReplyOpt (json : Json) : Except PyError (Option QuickReply) := do
  let hasQR ← json.hasKey "quick_reply"
  if hasQR then do
    let q ← json.index "quick_reply"
    let qr ← QuickReply.from_json q
    pure (some qr)
  else
    pure none

/-- `events.MessageReceived.from_json`, in the source's order of dictionary
accesses: quick reply, attachments, text, `mid`, `seq`. -/
def MessageReceived.from_json (user_id : Int) (timestamp : Json) (json : Json) :
    Except PyError MessageReceived := do
  let quick_reply ← decodeQuickReplyOpt json
  let attsJson ← json.get "attachments" (Json.arr [])
  let items ← attsJson.iter
  let attachments ← items.mapM decodeAttachment
  let text ← json.get "text" (Json.str "")
  let mid ← json.index "mid"
  let seq ← json.index "seq"
  pure ⟨user_id, timestamp, text, attachments, quick_reply, mid, seq⟩

/-- `events.MessageDelivered`. -/
structure MessageDelivered where
  user_id : Int
  timestamp : Json
  watermark : Json
  message_ids : Json
  sequence_position : Json

/-- `events.MessageDelivered.from_json`. -/
def MessageDelivered.from_json (user_id : Int) (timestamp : Json) (json : Json) :
    Except PyError MessageDelivered := do
  let mids ← json.get "mids" (Json.arr [])
  let watermark ← json.index "watermark"
  let seq ← json.index "seq"
  pure ⟨user_id, timestamp, watermark, mids, seq⟩

/-- `events.MessageRead`. -/
structure MessageRead where
  user_id : Int
  timestamp : Json
  watermark : Json
  sequence_position : Json

/-- `events.MessageRead.from_json`. -/
def MessageRead.from_json (user_id : Int) (timestamp : Json) (json : Json) :
    Except PyError MessageRead := do
  let watermark ← json.index "watermark"
  let seq ← json.index "seq"
  pure ⟨user_id, timestamp, watermark, seq⟩

/-- `events.Referral`. -/
structure Referral where
  user_id : Int
  timestamp : Json
  data : Json

/-- `events.Referral.from_json`. -/
def Referral.from_json (user_id : Int) (timestamp : Json) (json : Json) :
    Except PyError Referral := do
  let r ← json.index "ref"
  pure ⟨user_id, timestamp, r⟩

/-- `events.Postback`. -/
structure Postback where
  user_id : Int
  timestamp : Json
  payload : Json
  referral : Option Referral

/-- The referral conversion at the head of `events.Postback.from_json`:
decode `json.referral` when the key is present, otherwise `None`. -/
def decodeReferralOpt (user_id : Int) (timestamp : Json) (json : Json) :
    Except PyError (Option Referral) := do
  let hasRef ← json.hasKey "referral"
  if hasRef then do
    let rj ← json.index "referral"
    let r ← Referral.from_json user_id timestamp rj
    pure (some r)
  else
    pure none

/-- `events.Postback.from_json`. -/
def Postback.from_json (user_id : Int) (timestamp : Json) (json : Json) :
    Except PyError Postback := do
  let referral ← decodeReferralOpt user_id timestamp json
  let p ← json.index "payload"
  pure ⟨user_id, timestamp, p, referral⟩

/-- `events.OptIn`. -/
structure OptIn where
  user_id : Int
  timestamp : Json
  data : Json

/-- `events.OptIn.from_json`. -/
def OptIn.from_json (user_id : Int) (timestamp : Json) (json : Json) :
    Except PyError OptIn := do
  let r ← json.index "ref"
  pure ⟨user_id, timestamp, r⟩

/-- `events.AccountLink`. -/
structure AccountLink where
  user_id : Int
  timestamp : Json
  status : Json
  authorization_code : Option Json

/-- `events.AccountLink.from_json`: an authorization code is read only when
the status is not `"unlinked"`. -/
def AccountLink.from_json (user_id : Int) (timestamp : Json) (json : Json) :
    Except PyError AccountLink := do
  let status ← json.index "status"
  if status.eqStr "unlinked" then
    pure ⟨user_id, timestamp, status, none⟩
  else do
    let code ← json.index "authorization_code"
    pure ⟨user_id, timestamp, status, some code⟩

end Events

/-! ## `boomerang/server.py` — webhook dispatcher -/

namespace Server

/-- The events dispatched by `Messenger.handle_webhook`, one constructor per
entry of its `message_types` table. -/
inductive Event where
  | messageReceived (e : Events.MessageReceived)
  | messageDelivered (e : Events.MessageDelivered)
  | messageRead (e : Events.MessageRead)
  | postback (e : Events.Postback)
  | referral (e : Events.Referral)
  | optIn (e : Events.OptIn)
  | accountLink (e : Events.AccountLink)

/-- The behaviour of the per-type handler methods: invoking a handler either
returns normally or raises.  The default `Messenger` handlers only print and
never raise. -/
def Handlers := Event → Except PyError Unit

/-- The default handlers of the `Messenger` class (`message_received` and its
siblings), which log and return. -/
def defaultHandlers : Handlers := fun _ => .ok ()

/-- The decode half of one `message_types` row: build the event object for a
payload. -/
def Decoder := Int → Json → Json → Except PyError Event

/-- The `message_types` table of `Messenger.handle_webhook`, in its source
order: identifier key and decode operation (the handler half of each row is
supplied separately as `Handlers`). -/
def message_types : List (String × Decoder) :=
  [("message", fun uid ts j => (Events.MessageReceived.from_json uid ts j).map .messageReceived),
   ("delivery", fun uid ts j => (Events.MessageDelivered.from_json uid ts j).map .messageDelivered),
   ("read", fun uid ts j => (Events.MessageRead.from_json uid ts j).map .messageRead),
   ("postback", fun uid ts j => (Events.Postback.from_json uid ts j).map .postback),
   ("referral", fun uid ts j => (Events.Referral.from_json uid ts j).map .referral),
   ("optin", fun uid ts j => (Events.OptIn.from_json uid ts j).map .optIn),
   ("account_linking", fun uid ts j => (Events.AccountLink.from_json uid ts j).map .accountLink)]

/-- The inner `for message_type in message_types` loop of
`Messenger.handle_webhook`: probe each identifier in order; on the first one
present whose payload has no `is_echo` key, decode, invoke the handler and
`break` (returning the dispatched event); an echoed payload does not `break`,
so probing continues with the remaining identifiers. -/
def probeMessageTypes (handlers : Handlers) (user_id : Int) (timestamp : Json)
    (message : Json) : List (String × Decoder) → Except PyError (Option Event)
  | [] => .ok none
  | (identifier, decoder) :: rest => do
    let present ← message.hasKey identifier
    if present then do
      let payload ← message.index identifier
      let echo ← payload.hasKey "is_echo"
      if echo then
        probeMessageTypes handlers user_id timestamp message rest
      else do
        let ev ← decoder user_id timestamp payload
        handlers ev
        pure (some ev)
    else
      probeMessageTypes handlers user_id timestamp message rest

/-- The per-envelope body of `Messenger.handle_webhook`: extract
`sender.id` (through `int(...)`) and `timestamp`, then run the
`message_types` probe.  Returns the event dispatched for this envelope, if
any. -/
def handleEnvelope (handlers : Handlers) (message : Json) :
    Except PyError (Option Event) := do
  let sender ← message.index "sender"
  let idJson ← sender.index "id"
  let user_id ← pyInt idJson
  let timestamp ← message.index "timestamp"
  probeMessageTypes handlers user_id timestamp message message_types

/-- The response value produced by `sanic.response.text`. -/
structure HttpResponse where
  status : Nat
  body : String
deriving DecidableEq

/-- `Messenger.handle_webhook`: iterate the entries of `entry`, and inside
each the envelopes of `messaging`, dispatching each envelope; afterwards
return `200 "Success"`.  The returned list records the dispatched events in
order; an uncaught exception anywhere in the loops aborts the whole request
(`Except.error`), reaching neither the remaining envelopes nor the success
response. -/
def handle_webhook (handlers : Handlers) (body : Json) :
    Except PyError (List Event × HttpResponse) := do
  let entryJson ← body.index "entry"
  let entries ← entryJson.iter
  let traces ← entries.mapM (fun event => do
    let messagingJson ← event.index "messaging"
    let messaging ← messagingJson.iter
    let dispatched ← messaging.mapM (handleEnvelope handlers)
    pure (dispatched.filterMap id))
  pure (traces.flatten, ⟨200, "Success"⟩)

end Server

/-! ## `boomerang/buttons.py` — button construction and encode -/

namespace Buttons

/-- The length validation of `Button.__init__`, shared by the `URLButton`,
`PostbackButton` and `CallButton` constructors: more than 20 characters of
display text raises `BoomerangException`. -/
def buttonInitText (text : String) : Except PyError String :=
  if text.length > 20 then
    .error (.boomerangException
      "Text on buttons may not be more than 20 characters long")
  else
    .ok text

/-- `buttons.URLButton`. -/
structure URLButton where
  button_type : String
  text : String
  url : String

/-- `URLButton.__init__`. -/
def URLButton.make (text url : String) : Except PyError URLButton := do
  let t ← buttonInitText text
  pure ⟨"web_url", t, url⟩

/-- `URLButton.to_json`. -/
def URLButton.to_json (b : URLButton) : Json :=
  .obj [("type", .str b.button_type), ("title", .str b.text), ("url", .str b.url)]

/-- `buttons.PostbackButton`. -/
structure PostbackButton where
  button_type : String
  text : String
  payload : String

/-- `PostbackButton.__init__`. -/
def PostbackButton.make (text payload : String) : Except PyError PostbackButton := do
  let t ← buttonInitText text
  pure ⟨"postback", t, payload⟩

/-- `PostbackButton.to_json`. -/
def PostbackButton.to_json (b : PostbackButton) : Json :=
  .obj [("type", .str b.button_type), ("title", .str b.text),
        ("payload", .str b.payload)]

/-- `buttons.CallButton`. -/
structure CallButton where
  button_type : String
  text : String
  phone_number : String

/-- `CallButton.__init__`. -/
def CallButton.make (text phone_number : String) : Except PyError CallButton := do
  let t ← buttonInitText text
  pure ⟨"phone_number", t, phone_number⟩

/-- `CallButton.to_json`. -/
def CallButton.to_json (b : CallButton) : Json :=
  .obj [("type", .str b.button_type), ("title", .str b.text),
        ("payload", .str b.phone_number)]

/-- `buttons.ShareButton`: its constructor takes no display text and never
raises. -/
structure ShareButton where
  button_type : String

/-- `ShareButton.__init__`. -/
def ShareButton.make : Except PyError ShareButton := .ok ⟨"element_share"⟩

/-- `ShareButton.to_json`. -/
def ShareButton.to_json (b : ShareButton) : Json := .obj [("type", .str b.button_type)]

/-- `buttons.QuickReply` (outbound quick-reply button).  A location button
leaves `text`, `payload` and `image_url` unset. -/
structure QuickReply where
  button_type : String
  text : Option String
  payload : Option String
  image_url : Option String

/-- `QuickReply.__init__`: validates the button type, requires `text` and
`payload` on a text button, and forbids every other attribute on a location
button.  It performs no length check on `text`. -/
def QuickReply.make (button_type : String) (text payload image_url : Option String) :
    Except PyError QuickReply :=
  if button_type ≠ "text" ∧ button_type ≠ "location" then
    .error (.boomerangException "QuickReply button_type must be text or location")
  else if button_type = "text" then
    if text = none ∨ payload = none then
      .error (.boomerangException "QuickReply text button must contain text and payload")
    else
      .ok ⟨button_type, text, payload, image_url⟩
  else
    if text ≠ none ∨ payload ≠ none ∨ image_url ≠ none then
      .error (.boomerangException "QuickReply location button cannot contain other attributes")
    else
      .ok ⟨button_type, none, none, none⟩

/-- Value of an optional string attribute when read by `to_json` (a text
button always has its attributes set). -/
def optStr : Option String → Json
  | some s => .str s
  | none => .null

/-- `QuickReply.to_json`: the `content_type` key always; a text button adds
`title`, `payload`, and `image_url` when set. -/
def QuickReply.to_json (q : QuickReply) : Json :=
  if q.button_type = "text" then
    .obj ([("content_type", .str q.button_type), ("title", optStr q.text),
           ("payload", optStr q.payload)] ++
          (match q.image_url with
           | some u => [("image_url", Json.str u)]
           | none => []))
  else
    .obj [("content_type", .str q.button_type)]

end Buttons

/-! ## The outbound message model (modelled from the specification)

The outbound `Message` class exercised by `tests/test_messages.py` — optional
text, optional attachment, quick replies, and the `to_json` wire encode of
§4.2 — is not present in this snapshot of `boomerang/messages.py` (the file
holds an earlier, inbound-only revision whose `to_json` returns `None`).
The definitions below are modelled from the specification. -/

namespace SpecMessages

/-- Modelled from the spec: an outbound message attachment is either a
`MediaAttachment` (media type tag + URL, §3) or a template, whose `to_json`
wraps a variant-specific payload inside `\x7btype: "template", payload: ...\x7d`
(§4.2).  The template payload object is carried abstractly: no claim below
depends on its internals. -/
inductive Attachment where
  | media (media_type : String) (url : String)
  | template (payload : Json)

/-- Modelled from the spec: `MediaAttachment.to_json` is
`\x7btype: media_type, payload: \x7burl\x7d\x7d`; `Template.to_json` wraps its payload
(§4.2). -/
def Attachment.to_json : Attachment → Json
  | .media media_type url =>
    .obj [("type", .str media_type), ("payload", .obj [("url", .str url)])]
  | .template payload =>
    .obj [("type", .str "template"), ("payload", payload)]

/-- Modelled from the spec: the outbound `Message` value — optional text,
optional attachment, an order-preserving (possibly empty) list of quick-reply
buttons, and an optional metadata string (§3). -/
structure Message where
  text : Option String
  attachment : Option Attachment
  quick_replies : List Buttons.QuickReply
  metadata : Option String

/-- Modelled from the spec: `Message.__init__` — at least one of text and
attachment must be present; constructing with neither fails validation
(§3, §7). -/
def Message.make (text : Option String) (attachment : Option Attachment)
    (quick_replies : List Buttons.QuickReply) (metadata : Option String) :
    Except PyError Message :=
  match text, attachment with
  | none, none =>
    .error (.boomerangException "Message must contain text or an attachment")
  | _, _ => .ok ⟨text, attachment, quick_replies, metadata⟩

/-- Modelled from the spec: `Message.to_json` — key `text` iff text is set,
key `attachment` (= `attachment.to_json()`) iff an attachment is set, key
`quick_replies` (ordered array of each quick-reply's `to_json()`) iff the
list is non-empty; no other keys (§4.2). -/
def Message.to_json (m : Message) : Json :=
  .obj ((match m.text with
         | some t => [("text", Json.str t)]
         | none => []) ++
        (match m.attachment with
         | some a => [("attachment", a.to_json)]
         | none => []) ++
        (if m.quick_replies.isEmpty then []
         else [("quick_replies",
                Json.arr (m.quick_replies.map Buttons.QuickReply.to_json))]))

end SpecMessages

/-! ## SHA-256 (FIPS 180-4), the hash used by `Messenger.host_attachment`

`hashlib.sha256` is an external library call; it is embedded here as the
standard SHA-256 algorithm over byte lists, with 32-bit words carried as
naturals reduced modulo `2^32`. -/

namespace SHA256

/-- Truncation to a 32-bit word. -/
def w32 (x : Nat) : Nat := x % 4294967296

/-- Rotate the 32-bit word `x` right by `n` positions. -/
def rotr (n x : Nat) : Nat := w32 ((x >>> n) ||| (x <<< (32 - n)))

def smallSigma0 (x : Nat) : Nat := (rotr 7 x) ^^^ (rotr 18 x) ^^^ (x >>> 3)

def smallSigma1 (x : Nat) : Nat := (rotr 17 x) ^^^ (rotr 19 x) ^^^ (x >>> 10)

def bigSigma0 (x : Nat) : Nat := (rotr 2 x) ^^^ (rotr 13 x) ^^^ (rotr 22 x)

def bigSigma1 (x : Nat) : Nat := (rotr 6 x) ^^^ (rotr 11 x) ^^^ (rotr 25 x)

/-- The 64 round constants (decimal). -/
def K : List Nat :=
  [1116352408, 1899447441, 3049323471, 3921009573, 961987163, 1508970993,
   2453635748, 2870763221, 3624381080, 310598401, 607225278, 1426881987,
   1925078388, 2162078206, 2614888103, 3248222580, 3835390401, 4022224774,
   264347078, 604807628, 770255983, 1249150122, 1555081692, 1996064986,
   2554220882, 2821834349, 2952996808, 3210313671, 3336571891, 3584528711,
   113926993, 338241895, 666307205, 773529912, 1294757372, 1396182291,
   1695183700, 1986661051, 2177026350, 2456956037, 2730485921, 2820302411,
   3259730800, 3345764771, 3516065817, 3600352804, 4094571909, 275423344,
   430227734, 506948616, 659060556, 883997877, 958139571, 1322822218,
   1537002063, 1747873779, 1955562222, 2024104815, 2227730452, 2361852424,
   2428436474, 2756734187, 3204031479, 3329325298]

/-- The eight working registers. -/
structure Regs where
  a : Nat
  b : Nat
  c : Nat
  d : Nat
  e : Nat
  f : Nat
  g : Nat
  h : Nat

/-- The initial hash value (decimal). -/
def initRegs : Regs :=
  ⟨1779033703, 3144134277, 1013904242, 2773480762,
   1359893119, 2600822924, 528734635, 1541459225⟩

/-- One compression round. -/
def round (k w : Nat) (r : Regs) : Regs :=
  let s1 := bigSigma1 r.e
  let ch := (r.e &&& r.f) ^^^ ((r.e ^^^ 0xffffffff) &&& r.g)
  let temp1 := w32 (r.h + s1 + ch + k + w)
  let s0 := bigSigma0 r.a
  let maj := (r.a &&& r.b) ^^^ (r.a &&& r.c) ^^^ (r.b &&& r.c)
  let temp2 := w32 (s0 + maj)
  ⟨w32 (temp1 + temp2), r.a, r.b, r.c, w32 (r.d + temp1), r.e, r.f, r.g⟩

/-- A big-endian 32-bit word from four bytes. -/
def bytesToWord (b0 b1 b2 b3 : Nat) : Nat :=
  (b0 <<< 24) + (b1 <<< 16) + (b2 <<< 8) + b3

/-- The first 16 words of the message schedule of a 64-byte chunk. -/
def initialWords (chunk : List Nat) : List Nat :=
  (List.range 16).map (fun i =>
    bytesToWord (chunk.getD (4 * i) 0) (chunk.getD (4 * i + 1) 0)
      (chunk.getD (4 * i + 2) 0) (chunk.getD (4 * i + 3) 0))

/-- Extend the message schedule by `k` further words. -/
def extendWords (ws : List Nat) : Nat → List Nat
  | 0 => ws
  | k + 1 =>
    let i := ws.length
    let nw := w32 (smallSigma1 (ws.getD (i - 2) 0) + ws.getD (i - 7) 0 +
                   smallSigma0 (ws.getD (i - 15) 0) + ws.getD (i - 16) 0)
    extendWords (ws ++ [nw]) k

/-- Compress one 64-byte chunk into the running hash value. -/
def processChunk (r : Regs) (chunk : List Nat) : Regs :=
  let ws := extendWords (initialWords chunk) 48
  let f := (List.zip K ws).foldl (fun acc kw => round kw.1 kw.2 acc) r
  ⟨w32 (r.a + f.a), w32 (r.b + f.b), w32 (r.c + f.c), w32 (r.d + f.d),
   w32 (r.e + f.e), w32 (r.f + f.f), w32 (r.g + f.g), w32 (r.h + f.h)⟩

/-- Pad a byte message to a multiple of 64 bytes: a `0x80` byte, zeros, and
the 64-bit big-endian bit length. -/
def pad (msg : List Nat) : List Nat :=
  let len := msg.length
  let z := (64 - ((len + 9) % 64)) % 64
  msg ++ [0x80] ++ List.replicate z 0 ++
    (List.range 8).map (fun i => ((len * 8) >>> (8 * (7 - i))) % 256)

/-- Split a byte list into 64-byte chunks. -/
def chunks : List Nat → List (List Nat)
  | [] => []
  | x :: rest => ((x :: rest).take 64) :: chunks ((x :: rest).drop 64)
termination_by l => l.length
decreasing_by
  simp [List.length_drop]
  omega

/-- The four big-endian bytes of a 32-bit word. -/
def wordBytes (x : Nat) : List Nat :=
  [(x >>> 24) % 256, (x >>> 16) % 256, (x >>> 8) % 256, x % 256]

/-- The 32-byte SHA-256 digest of a byte message. -/
def digestBytes (msg : List Nat) : List Nat :=
  let f := (chunks (pad msg)).foldl processChunk initRegs
  wordBytes f.a ++ wordBytes f.b ++ wordBytes f.c ++ wordBytes f.d ++
    wordBytes f.e ++ wordBytes f.f ++ wordBytes f.g ++ wordBytes f.h

/-- The lowercase hex digit of a value below 16. -/
def hexChar (n : Nat) : Char :=
  if n < 10 then Char.ofNat (48 + n) else Char.ofNat (87 + n)

/-- Two lowercase hex digits of a byte. -/
def byteHex (b : Nat) : String := String.mk [hexChar (b / 16), hexChar (b % 16)]

def hexOfBytes (bs : List Nat) : String := String.join (bs.map byteHex)

/-- `hashlib.sha256(bytes(s, 'utf-8')).hexdigest()`. -/
def sha256_hexdigest (s : String) : String :=
  hexOfBytes (digestBytes (s.toUTF8.toList.map (fun b => b.toNat)))

end SHA256

/-! ## `boomerang/messages.py` — the attachment value built by hosting -/

namespace Messages

/-- `messages.MediaAttachment` as constructed by `Messenger.host_attachment`:
its `__init__` stores the media type tag and the URL. -/
structure MediaAttachment where
  media_type : String
  url : String

end Messages

/-! ## `boomerang/server.py` — attachment hosting -/

namespace Server

/-- The mutable state of a `Messenger` instance touched by
`host_attachment`: the configured public base URL (set by `run`, possibly
`None`), the `_attachments` dictionary from filename to relative URL, and
the routes registered with the static file server. -/
structure MessengerState where
  base_url : Option String
  attachments : List (String × String)
  static_routes : List (String × String)

/-- `Messenger.host_attachment`: fails when no base URL is configured; if the
filename is not yet in `_attachments`, derives the relative URL
`'/' + sha256(filename).hexdigest()`, stores it and registers it with the
static server; then returns a `MediaAttachment` whose URL is the base URL
followed by the stored relative URL, together with the updated state. -/
def host_attachment (st : MessengerState) (media_type filename : String) :
    Except PyError (Messages.MediaAttachment × MessengerState) :=
  match st.base_url with
  | none => .error (.boomerangException "base_url must be set for attachment hosting")
  | some base =>
    let st1 : MessengerState :=
      if (assocFind st.attachments filename).isSome then st
      else
        let identifier := SHA256.sha256_hexdigest filename
        ⟨st.base_url,
         st.attachments ++ [(filename, "/" ++ identifier)],
         st.static_routes ++ [("/" ++ identifier, filename)]⟩
    match assocFind st1.attachments filename with
    | some relative_url => .ok (⟨media_type, base ++ relative_url⟩, st1)
    | none => .error (.keyError filename)

end Server

/-! ## Specification-side dispatch order (for comparison with the probe loop) -/

/-- Specification-side reading of the dispatch rule: the first row of the
type table, in priority order, whose identifier is present in the envelope
with a payload that does not carry the `is_echo` marker. -/
def specFirstDispatchRow (message : Json) :
    List (String × Server.Decoder) → Option (String × Server.Decoder)
  | [] => none
  | (identifier, d) :: rest =>
    match message.lookup identifier with
    | some payload =>
      if (payload.lookup "is_echo").isSome then specFirstDispatchRow message rest
      else some (identifier, d)
    | none => specFirstDispatchRow message rest

/-! ## Concrete webhook inputs used by the individual claims -/

/-- An envelope whose `message` payload lacks the required `mid`/`seq` keys:
decoding it raises `KeyError`. -/
def c1_malformed_envelope : Json :=
  .obj [("sender", .obj [("id", .num 11)]), ("timestamp", .num 100),
        ("message", .obj [("text", .str "hi")])]

/-- A fully well-formed `message` envelope. -/
def c1_wellformed_envelope : Json :=
  .obj [("sender", .obj [("id", .num 22)]), ("timestamp", .num 101),
        ("message", .obj [("mid", .str "m2"), ("seq", .num 7),
                          ("text", .str "pong")])]

/-- A webhook POST body whose first envelope is malformed and whose second is
well-formed. -/
def c1_webhook_body : Json :=
  .obj [("entry",
         .arr [.obj [("messaging",
                      .arr [c1_malformed_envelope, c1_wellformed_envelope])]])]

/-- A webhook POST body with a single well-formed envelope. -/
def c1_single_body : Json :=
  .obj [("entry", .arr [.obj [("messaging", .arr [c1_wellformed_envelope])]])]

/-- A handler implementation that raises on every event (a user-overridden
handler method may raise arbitrarily). -/
def raisingHandlers : Server.Handlers :=
  fun _ => .error (.boomerangException "handler failure")

/-- A `message` payload carrying the echo marker. -/
def c2_echo_payload : Json :=
  .obj [("is_echo", .bool true), ("mid", .str "m0"), ("seq", .num 1)]

/-- An envelope whose first-priority recognized key (`message`) carries an
echoed payload while a lower-priority key (`postback`) is also present. -/
def c2_envelope : Json :=
  .obj [("sender", .obj [("id", .num 1)]), ("timestamp", .num 100),
        ("message", c2_echo_payload), ("postback", .obj [("payload", .str "p")])]

def c2_body : Json :=
  .obj [("entry", .arr [.obj [("messaging", .arr [c2_envelope])]])]

/-- A webhook POST body with a single envelope whose only recognized key is
`message`, with the given payload. -/
def mkSingleMessageBody (uid : Int) (ts payload : Json) : Json :=
  .obj [("entry",
         .arr [.obj [("messaging",
                      .arr [.obj [("sender", .obj [("id", .num uid)]),
                                  ("timestamp", ts),
                                  ("message", payload)]])]])]

/-- An envelope whose only recognized key is `message`, echoed. -/
def c3_envelope : Json :=
  .obj [("sender", .obj [("id", .num 3)]), ("timestamp", .num 50),
        ("message", .obj [("is_echo", .bool true), ("mid", .str "m9"),
                          ("seq", .num 2)])]

def c3_body : Json :=
  .obj [("entry", .arr [.obj [("messaging", .arr [c3_envelope])]])]

/-- An envelope with an echoed `message` payload and a well-formed
`delivery` payload. -/
def c3_witness_envelope : Json :=
  .obj [("sender", .obj [("id", .num 5)]), ("timestamp", .num 7),
        ("message", .obj [("is_echo", .bool true)]),
        ("delivery", .obj [("watermark", .num 3), ("seq", .num 1)])]

/-- A display text of 21 characters. -/
def c6_long_text : String := "abcdefghijklmnopqrstu"

/-- A display text of exactly 20 characters. -/
def c6_max_text : String := "abcdefghijklmnopqrst"

/-- The decode-idempotence example payload of the specification (§8). -/
def c7_example : Json :=
  .obj [("mid", .str "m1"), ("seq", .num 5), ("text", .str "hi")]

/-- The location-attachment payload of `tests/test_events.py` (numeric
literals carried as opaque strings). -/
def c8_example : Json :=
  .obj [("title", .str "location title"), ("type", .str "location"),
        ("url", .str "dummy_url"),
        ("payload", .obj [("coordinates",
                           .obj [("long", .str "38.8976763"),
                                 ("lat", .str "-77.0387185")])])]

/-! ## Helper lemmas -/

theorem exceptBind_ok {α β : Type} {x : Except PyError α} {f : α → Except PyError β}
    {b : β} (h : x >>= f = .ok b) : ∃ a, x = .ok a ∧ f a = .ok b := by
  cases x with
  | error e => simp [Bind.bind, Except.bind] at h
  | ok a => exact ⟨a, rfl, by simpa [Bind.bind, Except.bind] using h⟩

theorem index_ok_iff {j : Json} {key : String} {v : Json} :
    j.index key = .ok v ↔ j.lookup key = some v := by
  cases j <;> simp [Json.index, Json.lookup]
  case obj fields => cases h : assocFind fields key <;> simp [h]

theorem get_ok {j : Json} {key : String} {d v : Json} (h : j.get key d = .ok v) :
    v = (j.lookup key).getD d := by
  cases j <;> simp [Json.get, Json.lookup] at h ⊢
  exact h.symm

theorem assocFind_mem {α : Type} {l : List (String × α)} {k : String} {v : α}
    (h : assocFind l k = some v) : (k, v) ∈ l := by
  induction l with
  | nil => simp [assocFind] at h
  | cons p rest ih =>
    obtain ⟨k', v'⟩ := p
    by_cases hk : k' = k
    · subst hk
      simp [assocFind] at h
      simp [h]
    · simp [assocFind, hk] at h
      exact List.mem_cons_of_mem _ (ih h)

theorem assocFind_append_none {α : Type} {l l₂ : List (String × α)} {k : String}
    (h : assocFind l k = none) : assocFind (l ++ l₂) k = assocFind l₂ k := by
  induction l with
  | nil => simp
  | cons p rest ih =>
    obtain ⟨k', v'⟩ := p
    by_cases hk : k' = k
    · subst hk; simp [assocFind] at h
    · simp [assocFind, hk] at h ⊢
      exact ih h

/-! ## C1 — batch isolation of the webhook dispatcher -/

/-- C1: the claim states that `handle_webhook` always processes every
envelope to completion and returns 200 `"Success"`, with decode failures and
handler exceptions confined to their envelope.  The code has no guard: a
`KeyError` raised while decoding the first envelope propagates out of
`handle_webhook`, so the second (well-formed) envelope is never processed and
no success response is produced; likewise an exception raised by a handler
propagates out. -/
theorem c1_no_partial_failure_isolation :
    Server.handle_webhook Server.defaultHandlers c1_webhook_body =
      .error (.keyError "mid") ∧
    Server.handle_webhook raisingHandlers c1_single_body =
      .error (.boomerangException "handler failure") :=
  ⟨rfl, rfl⟩

/-! ## C2 — echo suppression -/

/-- C2 counterexample: in `c2_envelope` the first recognized key in priority
order is `message` and its payload carries `is_echo`, yet the dispatcher does
not skip the envelope: probing continues and the `postback` handler is
invoked (one dispatch, not zero). -/
theorem c2_echo_envelope_not_skipped :
    Json.lookup c2_envelope "message" = some c2_echo_payload ∧
    (Json.lookup c2_echo_payload "is_echo").isSome = true ∧
    Server.handle_webhook Server.defaultHandlers c2_body =
      .ok ([Server.Event.postback ⟨1, Json.num 100, Json.str "p", none⟩],
           ⟨200, "Success"⟩) :=
  ⟨rfl, rfl, rfl⟩

/-! ## C3 — priority probing -/

/-- C3 counterexample: in `c3_envelope` the first (indeed only) recognized
key present is `message`, so the claim requires exactly one decode/dispatch
for it; but its payload is echoed and the dispatcher performs zero
dispatches (while returning 200). -/
theorem c3_echoed_first_match_not_dispatched :
    (Json.lookup c3_envelope "message").isSome = true ∧
    Server.handle_webhook Server.defaultHandlers c3_body =
      .ok ([], ⟨200, "Success"⟩) :=
  ⟨rfl, rfl⟩

/-- The probe loop agrees with the specification-side dispatch order: it
dispatches exactly the first row (in priority order) whose identifier is
present with a non-echoed payload, and returns `ok none` (skip, no error)
when there is no such row.  Payloads of recognized keys are assumed to be
JSON objects (as they are in every platform envelope). -/
theorem probe_eq_specFirstDispatchRow (H : Server.Handlers) (uid : Int) (ts : Json)
    (mfs : List (String × Json)) (tys : List (String × Server.Decoder))
    (hp : ∀ k ∈ tys.map Prod.fst,
      ((Json.lookup (Json.obj mfs) k).getD (Json.obj [])).isObj = true) :
    Server.probeMessageTypes H uid ts (Json.obj mfs) tys =
      (match specFirstDispatchRow (Json.obj mfs) tys with
       | none => .ok none
       | some (k, d) => do
          let ev ← d uid ts ((Json.lookup (Json.obj mfs) k).getD Json.null)
          H ev
          pure (some ev)) := by
  induction tys with
  | nil => rfl
  | cons row rest ih =>
    obtain ⟨identifier, d⟩ := row
    have hid := hp identifier (by simp)
    have hrest : ∀ k ∈ rest.map Prod.fst,
        ((Json.lookup (Json.obj mfs) k).getD (Json.obj [])).isObj = true :=
      fun k hk => hp k (by simp [hk])
    cases hfind : assocFind mfs identifier with
    | none =>
      simpa [Server.probeMessageTypes, Json.hasKey, hfind, Bind.bind,
             Except.bind, specFirstDispatchRow, Json.lookup] using ih hrest
    | some payload =>
      have hobj : payload.isObj = true := by
        simpa [Json.lookup, hfind] using hid
      cases payload with
      | obj pfs =>
        cases hecho : (assocFind pfs "is_echo").isSome with
        | true =>
          simpa [Server.probeMessageTypes, Json.hasKey, Json.index, hfind,
                 hecho, Bind.bind, Except.bind, specFirstDispatchRow,
                 Json.lookup] using ih hrest
        | false =>
          simp [Server.probeMessageTypes, Json.hasKey, Json.index, hfind,
                hecho, Bind.bind, Except.bind, specFirstDispatchRow,
                Json.lookup]
      | null => simp [Json.isObj] at hobj
      | bool b => simp [Json.isObj] at hobj
      | num n => simp [Json.isObj] at hobj
      | str s => simp [Json.isObj] at hobj
      | arr elems => simp [Json.isObj] at hobj

/-- C3 (amended): for every envelope (with well-formed sender/timestamp and
object payloads), the dispatcher probes the recognized keys in the fixed
priority order `message`, `delivery`, `read`, `postback`, `referral`,
`optin`, `account_linking`; exactly one decode/dispatch occurs, for the
first key present whose payload does not carry `is_echo`; an envelope with
no such key is skipped without error. -/
theorem c3_first_non_echo_match_dispatched (H : Server.Handlers)
    (mfs : List (String × Json)) (sender idJson : Json) (uid : Int) (ts : Json)
    (hs : Json.lookup (Json.obj mfs) "sender" = some sender)
    (hid : sender.lookup "id" = some idJson)
    (huid : pyInt idJson = .ok uid)
    (hts : Json.lookup (Json.obj mfs) "timestamp" = some ts)
    (hp : ∀ k ∈ Server.message_types.map Prod.fst,
      ((Json.lookup (Json.obj mfs) k).getD (Json.obj [])).isObj = true) :
    Server.handleEnvelope H (Json.obj mfs) =
      (match specFirstDispatchRow (Json.obj mfs) Server.message_types with
       | none => .ok none
       | some (k, d) => do
          let ev ← d uid ts ((Json.lookup (Json.obj mfs) k).getD Json.null)
          H ev
          pure (some ev)) := by
  have hs' : (Json.obj mfs).index "sender" = .ok sender := index_ok_iff.mpr hs
  have hid' : sender.index "id" = .ok idJson := index_ok_iff.mpr hid
  have hts' : (Json.obj mfs).index "timestamp" = .ok ts := index_ok_iff.mpr hts
  rw [← probe_eq_specFirstDispatchRow H uid ts mfs Server.message_types hp]
  simp [Server.handleEnvelope, hs', hid', huid, hts', Bind.bind, Except.bind]

/-- C3 witness input: in `c3_witness_envelope` the echoed `message` payload
is passed over and the `delivery` row is dispatched. -/
theorem c3_first_non_echo_match_dispatched_witness :
    Server.handleEnvelope Server.defaultHandlers c3_witness_envelope =
      .ok (some (Server.Event.messageDelivered
        ⟨5, Json.num 7, Json.num 3, Json.arr [], Json.num 1⟩)) := by
  have h := c3_first_non_echo_match_dispatched Server.defaultHandlers
    [("sender", .obj [("id", .num 5)]), ("timestamp", .num 7),
     ("message", .obj [("is_echo", .bool true)]),
     ("delivery", .obj [("watermark", .num 3), ("seq", .num 1)])]
    (.obj [("id", .num 5)]) (.num 5) 5 (.num 7)
    rfl rfl rfl rfl (by decide)
  exact h

/-- C2 (amended): the echoed payload itself is not decoded and no handler is
invoked for it, but the dispatcher merely passes over that key and continues
probing lower-priority keys; in particular, a webhook POST with one
envelope whose only recognized key is `message` carrying `is_echo` results
in zero handler dispatches while the endpoint still returns 200
`"Success"`. -/
theorem c2_single_echo_envelope_zero_dispatches (H : Server.Handlers)
    (uid : Int) (ts : Json) (pfs : List (String × Json))
    (hecho : (assocFind pfs "is_echo").isSome = true) :
    Server.handle_webhook H (mkSingleMessageBody uid ts (Json.obj pfs)) =
      .ok ([], ⟨200, "Success"⟩) := by
  have henv : Server.handleEnvelope H
      (Json.obj [("sender", .obj [("id", .num uid)]), ("timestamp", ts),
                 ("message", .obj pfs)]) = .ok none := by
    simp [Server.handleEnvelope, Server.probeMessageTypes,
          Server.message_types, Json.index, Json.hasKey, assocFind, pyInt,
          hecho, Bind.bind, Except.bind]
  simp [Server.handle_webhook, mkSingleMessageBody, Json.index, Json.iter,
        assocFind, Bind.bind, Except.bind, List.mapM, List.mapM.loop, henv,
        pure, Except.pure]

/-- C2 witness input: one echoed `message` envelope, zero dispatches,
status 200. -/
theorem c2_single_echo_envelope_zero_dispatches_witness :
    Server.handle_webhook Server.defaultHandlers
      (mkSingleMessageBody 1 (Json.num 100) c2_echo_payload) =
      .ok ([], ⟨200, "Success"⟩) :=
  c2_single_echo_envelope_zero_dispatches Server.defaultHandlers 1
    (Json.num 100) [("is_echo", .bool true), ("mid", .str "m0"), ("seq", .num 1)]
    rfl

/-! ## C4, C5 — the outbound message encode and validation (spec-modelled) -/

/-- C4: `Message.to_json` has the key `text` iff text is set, the key
`attachment` (equal to `attachment.to_json()`) iff an attachment is set, and
the key `quick_replies` (the ordered array of each quick-reply's
`to_json()`) iff the quick-reply list is non-empty, with no other keys. -/
theorem c4_message_to_json_keys (m : SpecMessages.Message) :
    (SpecMessages.Message.to_json m).lookup "text" = m.text.map Json.str ∧
    (SpecMessages.Message.to_json m).lookup "attachment" =
      m.attachment.map SpecMessages.Attachment.to_json ∧
    (SpecMessages.Message.to_json m).lookup "quick_replies" =
      (if m.quick_replies.isEmpty then none
       else some (Json.arr (m.quick_replies.map Buttons.QuickReply.to_json))) ∧
    (∀ k ∈ (SpecMessages.Message.to_json m).keys,
      k = "text" ∨ k = "attachment" ∨ k = "quick_replies") := by
  obtain ⟨t, a, qs, md⟩ := m
  cases t <;> cases a <;> cases qs <;>
    simp [SpecMessages.Message.to_json, Json.lookup, Json.keys, assocFind]

/-- C4 witness: a text-only message. -/
theorem c4_message_to_json_keys_witness :
    (SpecMessages.Message.to_json ⟨some "hi", none, [], none⟩).lookup "text" =
      some (Json.str "hi") ∧
    (SpecMessages.Message.to_json ⟨some "hi", none, [], none⟩).lookup "attachment" =
      none ∧
    (SpecMessages.Message.to_json ⟨some "hi", none, [], none⟩).lookup "quick_replies" =
      none ∧
    (∀ k ∈ (SpecMessages.Message.to_json ⟨some "hi", none, [], none⟩).keys,
      k = "text" ∨ k = "attachment" ∨ k = "quick_replies") :=
  c4_message_to_json_keys ⟨some "hi", none, [], none⟩

/-- C5: constructing a `Message` with neither text nor an attachment fails
validation, and either alone succeeds. -/
theorem c5_message_requires_text_or_attachment (t : String)
    (a : SpecMessages.Attachment) (qs : List Buttons.QuickReply)
    (md : Option String) :
    SpecMessages.Message.make none none qs md =
      .error (.boomerangException "Message must contain text or an attachment") ∧
    SpecMessages.Message.make (some t) none qs md = .ok ⟨some t, none, qs, md⟩ ∧
    SpecMessages.Message.make none (some a) qs md = .ok ⟨none, some a, qs, md⟩ :=
  ⟨rfl, rfl, rfl⟩

/-- C5 witness: a concrete text and a concrete attachment. -/
theorem c5_message_requires_text_or_attachment_witness :
    SpecMessages.Message.make none none [] none =
      .error (.boomerangException "Message must contain text or an attachment") ∧
    SpecMessages.Message.make (some "hi") none [] none =
      .ok ⟨some "hi", none, [], none⟩ ∧
    SpecMessages.Message.make none (some (.media "image" "http://u")) [] none =
      .ok ⟨none, some (.media "image" "http://u"), [], none⟩ :=
  c5_message_requires_text_or_attachment "hi" (.media "image" "http://u") [] none

/-! ## C6 — button display-text length validation -/

/-- C6: the claim states that every button variant rejects display text
longer than 20 characters.  `URLButton`, `PostbackButton` and `CallButton`
do (through `Button.__init__`), and exactly 20 characters succeeds
everywhere; but `QuickReply.__init__` performs no length check, so a
21-character text quick-reply constructs successfully, contradicting both
the claim and the class's own docstring. -/
theorem c6_quick_reply_skips_length_validation :
    Buttons.QuickReply.make "text" (some c6_long_text) (some "payload") none =
      .ok ⟨"text", some c6_long_text, some "payload", none⟩ ∧
    (∃ e, Buttons.URLButton.make c6_long_text "http://example.com" = .error e) ∧
    (∃ e, Buttons.PostbackButton.make c6_long_text "pb" = .error e) ∧
    (∃ e, Buttons.CallButton.make c6_long_text "+15105551234" = .error e) ∧
    Buttons.URLButton.make c6_max_text "http://example.com" =
      .ok ⟨"web_url", c6_max_text, "http://example.com"⟩ ∧
    Buttons.PostbackButton.make c6_max_text "pb" =
      .ok ⟨"postback", c6_max_text, "pb"⟩ ∧
    Buttons.CallButton.make c6_max_text "+15105551234" =
      .ok ⟨"phone_number", c6_max_text, "+15105551234"⟩ ∧
    Buttons.QuickReply.make "text" (some c6_max_text) (some "payload") none =
      .ok ⟨"text", some c6_max_text, some "payload", none⟩ :=
  ⟨rfl, ⟨_, rfl⟩, ⟨_, rfl⟩, ⟨_, rfl⟩, rfl, rfl, rfl, rfl⟩

theorem hasKey_false_lookup {j : Json} {key : String}
    (h : j.hasKey key = .ok false) : j.lookup key = none := by
  cases j with
  | obj fields =>
    simp [Json.hasKey] at h
    cases hf : assocFind fields key with
    | none => simp [Json.lookup, hf]
    | some v => rw [hf] at h; simp at h
  | null => simp [Json.hasKey] at h
  | bool b => simp [Json.hasKey] at h
  | num n => simp [Json.hasKey] at h
  | str s => simp [Json.lookup]
  | arr elems => simp [Json.lookup]

theorem decodeQuickReplyOpt_spec {j : Json} {qro : Option Events.QuickReply}
    (h : Events.decodeQuickReplyOpt j = .ok qro) :
    match j.lookup "quick_reply" with
    | some q => ∃ qr, Events.QuickReply.from_json q = .ok qr ∧ qro = some qr
    | none => qro = none := by
  unfold Events.decodeQuickReplyOpt at h
  obtain ⟨b, hb, h⟩ := exceptBind_ok h
  cases b with
  | false =>
    rw [if_neg (by simp)] at h
    have hq : qro = none := by simpa [pure, Except.pure] using h.symm
    subst hq
    rw [hasKey_false_lookup hb]
  | true =>
    rw [if_pos rfl] at h
    obtain ⟨q, hq, h⟩ := exceptBind_ok h
    obtain ⟨qr, hqd, h⟩ := exceptBind_ok h
    have hs : qro = some qr := by simpa [pure, Except.pure] using h.symm
    subst hs
    rw [index_ok_iff.mp hq]
    exact ⟨qr, hqd, rfl⟩

/-! ## C7 — the `MessageReceived` decode contract -/

/-- C7: on success, `MessageReceived.from_json` yields text `json.text` (or
the empty string when absent), attachments obtained by mapping the
location/media dispatch over `json.attachments` (empty when the key is
absent), the decoded `json.quick_reply` when present and `none` otherwise,
and `message_id`/`sequence_position` from the required keys `mid`/`seq`;
the decode fails whenever either required key is absent. -/
theorem c7_message_received_decode (uid : Int) (ts j : Json) :
    (∀ m, Events.MessageReceived.from_json uid ts j = .ok m →
      m.text = (j.lookup "text").getD (Json.str "") ∧
      (∃ items, ((j.lookup "attachments").getD (Json.arr [])).iter = .ok items ∧
        items.mapM Events.decodeAttachment = .ok m.attachments) ∧
      (j.lookup "attachments" = none → m.attachments = []) ∧
      (match j.lookup "quick_reply" with
       | some q => ∃ qr, Events.QuickReply.from_json q = .ok qr ∧
           m.quick_reply = some qr
       | none => m.quick_reply = none) ∧
      j.lookup "mid" = some m.message_id ∧
      j.lookup "seq" = some m.sequence_position) ∧
    ((j.lookup "mid" = none ∨ j.lookup "seq" = none) →
      ∀ m, Events.MessageReceived.from_json uid ts j ≠ .ok m) := by
  constructor
  · intro m h
    unfold Events.MessageReceived.from_json at h
    obtain ⟨qro, hqr, h⟩ := exceptBind_ok h
    obtain ⟨attsJson, hga, h⟩ := exceptBind_ok h
    obtain ⟨items, hit, h⟩ := exceptBind_ok h
    obtain ⟨atts, hmap, h⟩ := exceptBind_ok h
    obtain ⟨text, hgt, h⟩ := exceptBind_ok h
    obtain ⟨mid, hmid, h⟩ := exceptBind_ok h
    obtain ⟨seq, hseq, h⟩ := exceptBind_ok h
    have hm : m = ⟨uid, ts, text, atts, qro, mid, seq⟩ := by
      simpa [pure, Except.pure] using h.symm
    subst hm
    have hatts : attsJson = (j.lookup "attachments").getD (Json.arr []) :=
      get_ok hga
    refine ⟨get_ok hgt, ⟨items, by rw [← hatts]; exact hit, hmap⟩, ?_,
      decodeQuickReplyOpt_spec hqr,
      index_ok_iff.mp hmid, index_ok_iff.mp hseq⟩
    intro habs
    rw [habs] at hatts
    subst hatts
    simp [Json.iter] at hit
    subst hit
    simpa [List.mapM, List.mapM.loop, pure, Except.pure] using hmap.symm
  · rintro hmiss m h
    unfold Events.MessageReceived.from_json at h
    obtain ⟨qro, hqr, h⟩ := exceptBind_ok h
    obtain ⟨attsJson, hga, h⟩ := exceptBind_ok h
    obtain ⟨items, hit, h⟩ := exceptBind_ok h
    obtain ⟨atts, hmap, h⟩ := exceptBind_ok h
    obtain ⟨text, hgt, h⟩ := exceptBind_ok h
    obtain ⟨mid, hmid, h⟩ := exceptBind_ok h
    obtain ⟨seq, hseq, h⟩ := exceptBind_ok h
    rcases hmiss with hmiss | hmiss
    · rw [index_ok_iff.mp hmid] at hmiss
      exact Option.noConfusion hmiss
    · rw [index_ok_iff.mp hseq] at hmiss
      exact Option.noConfusion hmiss

/-- C7 witness: the decode-idempotence example of the specification, plus a
payload missing `seq`. -/
theorem c7_message_received_decode_witness :
    (Events.MessageReceived.from_json 1 (Json.num 2) c7_example =
      .ok ⟨1, Json.num 2, Json.str "hi", [], none, Json.str "m1", Json.num 5⟩) ∧
    ((Json.str "hi") = (c7_example.lookup "text").getD (Json.str "") ∧
      c7_example.lookup "mid" = some (Json.str "m1") ∧
      c7_example.lookup "seq" = some (Json.num 5)) ∧
    (∀ m, Events.MessageReceived.from_json 1 (Json.num 2)
      (Json.obj [("mid", .str "m1")]) ≠ .ok m) := by
  refine ⟨rfl, ?_, ?_⟩
  · have h := (c7_message_received_decode 1 (Json.num 2) c7_example).1
      ⟨1, Json.num 2, Json.str "hi", [], none, Json.str "m1", Json.num 5⟩ rfl
    exact ⟨h.1, h.2.2.2.2.1, h.2.2.2.2.2⟩
  · exact (c7_message_received_decode 1 (Json.num 2)
      (Json.obj [("mid", .str "m1")])).2 (Or.inr rfl)

/-! ## C8 — the `LocationAttachment` decode assignment -/

/-- C8: when `LocationAttachment.from_json` succeeds, the decoded object's
`latitude` field holds the JSON's `payload.coordinates.lat` value and its
`longitude` field holds the `payload.coordinates.long` value. -/
theorem c8_location_decode_assignment (j : Json) (la : Events.LocationAttachment)
    (h : Events.LocationAttachment.from_json j = .ok la) :
    ∃ payload coords,
      j.lookup "payload" = some payload ∧
      payload.lookup "coordinates" = some coords ∧
      coords.lookup "lat" = some la.latitude ∧
      coords.lookup "long" = some la.longitude := by
  unfold Events.LocationAttachment.from_json at h
  obtain ⟨payload, hp, h⟩ := exceptBind_ok h
  obtain ⟨coords, hc, h⟩ := exceptBind_ok h
  obtain ⟨lat, hl, h⟩ := exceptBind_ok h
  obtain ⟨lng, hg, h⟩ := exceptBind_ok h
  have hla : la = ⟨lat, lng⟩ := by simpa [pure, Except.pure] using h.symm
  subst hla
  exact ⟨payload, coords, index_ok_iff.mp hp, index_ok_iff.mp hc,
    index_ok_iff.mp hl, index_ok_iff.mp hg⟩

/-- C8 witness: the location payload of the repository's tests decodes with
`latitude` = the `lat` value and `longitude` = the `long` value. -/
theorem c8_location_decode_assignment_witness :
    Events.LocationAttachment.from_json c8_example =
      .ok ⟨.str "-77.0387185", .str "38.8976763"⟩ ∧
    ∃ payload coords,
      c8_example.lookup "payload" = some payload ∧
      payload.lookup "coordinates" = some coords ∧
      coords.lookup "lat" = some (Json.str "-77.0387185") ∧
      coords.lookup "long" = some (Json.str "38.8976763") :=
  ⟨rfl, c8_location_decode_assignment c8_example
    ⟨.str "-77.0387185", .str "38.8976763"⟩ rfl⟩

/-! ## C9 — idempotence of attachment hosting -/

/-- C9: with a base URL configured (and every previously hosted entry of the
`_attachments` table holding its derived relative URL, as every reachable
state does), `host_attachment` returns a `MediaAttachment` of the given
media type whose URL is the base URL followed by `/` plus the SHA-256 hex
digest of the file reference, and hosting the same file reference a second
time leaves the state untouched (no re-registration) while returning the
same URL. -/
theorem c9_host_attachment_idempotent (st : Server.MessengerState)
    (b mt mt2 filename : String)
    (hbase : st.base_url = some b)
    (hwf : ∀ p ∈ st.attachments, p.2 = "/" ++ SHA256.sha256_hexdigest p.1) :
    ∃ st1 : Server.MessengerState,
      Server.host_attachment st mt filename =
        .ok (⟨mt, b ++ ("/" ++ SHA256.sha256_hexdigest filename)⟩, st1) ∧
      Server.host_attachment st1 mt2 filename =
        .ok (⟨mt2, b ++ ("/" ++ SHA256.sha256_hexdigest filename)⟩, st1) ∧
      st1.base_url = st.base_url ∧
      (∀ p ∈ st1.attachments, p.2 = "/" ++ SHA256.sha256_hexdigest p.1) := by
  obtain ⟨burl, atts, routes⟩ := st
  have hb' : burl = some b := hbase
  subst hb'
  cases hmem : assocFind atts filename with
  | some rel =>
    have hrel : rel = "/" ++ SHA256.sha256_hexdigest filename :=
      hwf (filename, rel) (assocFind_mem hmem)
    subst hrel
    refine ⟨⟨some b, atts, routes⟩, ?_, ?_, rfl, hwf⟩
    · simp [Server.host_attachment, hmem]
    · simp [Server.host_attachment, hmem]
  | none =>
    have hfind : assocFind
        (atts ++ [(filename, "/" ++ SHA256.sha256_hexdigest filename)])
        filename = some ("/" ++ SHA256.sha256_hexdigest filename) := by
      rw [assocFind_append_none hmem]
      simp [assocFind]
    refine ⟨⟨some b,
             atts ++ [(filename, "/" ++ SHA256.sha256_hexdigest filename)],
             routes ++ [("/" ++ SHA256.sha256_hexdigest filename, filename)]⟩,
            ?_, ?_, rfl, ?_⟩
    · simp [Server.host_attachment, hmem, hfind]
    · simp [Server.host_attachment, hfind]
    · intro p hp
      rcases List.mem_append.mp hp with hp | hp
      · exact hwf p hp
      · simp at hp
        subst hp
        rfl

/-- C9 witness: hosting from a fresh `Messenger` state with a configured
base URL. -/
theorem c9_host_attachment_idempotent_witness :
    ∃ st1 : Server.MessengerState,
      Server.host_attachment ⟨some "http://bot.example", [], []⟩
          "image" "photo.png" =
        .ok (⟨"image",
              "http://bot.example" ++ ("/" ++ SHA256.sha256_hexdigest "photo.png")⟩,
             st1) ∧
      Server.host_attachment st1 "image" "photo.png" =
        .ok (⟨"image",
              "http://bot.example" ++ ("/" ++ SHA256.sha256_hexdigest "photo.png")⟩,
             st1) ∧
      st1.base_url = some "http://bot.example" ∧
      (∀ p ∈ st1.attachments, p.2 = "/" ++ SHA256.sha256_hexdigest p.1) :=
  c9_host_attachment_idempotent ⟨some "http://bot.example", [], []⟩
    "http://bot.example" "image" "image" "photo.png" rfl (by simp)

/-! ## C10 — every decode preserves the supplied user id and timestamp -/

/-- C10: for each of the seven event variants, a successful `from_json`
returns an object whose `user_id` and `timestamp` fields equal the supplied
arguments, unchanged. -/
theorem c10_decode_preserves_identity (uid : Int) (ts j : Json) :
    (∀ e, Events.MessageReceived.from_json uid ts j = .ok e →
      e.user_id = uid ∧ e.timestamp = ts) ∧
    (∀ e, Events.MessageDelivered.from_json uid ts j = .ok e →
      e.user_id = uid ∧ e.timestamp = ts) ∧
    (∀ e, Events.MessageRead.from_json uid ts j = .ok e →
      e.user_id = uid ∧ e.timestamp = ts) ∧
    (∀ e, Events.Postback.from_json uid ts j = .ok e →
      e.user_id = uid ∧ e.timestamp = ts) ∧
    (∀ e, Events.Referral.from_json uid ts j = .ok e →
      e.user_id = uid ∧ e.timestamp = ts) ∧
    (∀ e, Events.OptIn.from_json uid ts j = .ok e →
      e.user_id = uid ∧ e.timestamp = ts) ∧
    (∀ e, Events.AccountLink.from_json uid ts j = .ok e →
      e.user_id = uid ∧ e.timestamp = ts) := by
  refine ⟨fun e h => ?_, fun e h => ?_, fun e h => ?_, fun e h => ?_,
          fun e h => ?_, fun e h => ?_, fun e h => ?_⟩
  · unfold Events.MessageReceived.from_json at h
    obtain ⟨qro, _, h⟩ := exceptBind_ok h
    obtain ⟨attsJson, _, h⟩ := exceptBind_ok h
    obtain ⟨items, _, h⟩ := exceptBind_ok h
    obtain ⟨atts, _, h⟩ := exceptBind_ok h
    obtain ⟨text, _, h⟩ := exceptBind_ok h
    obtain ⟨mid, _, h⟩ := exceptBind_ok h
    obtain ⟨seq, _, h⟩ := exceptBind_ok h
    have hm : e = ⟨uid, ts, text, atts, qro, mid, seq⟩ := by
      simpa [pure, Except.pure] using h.symm
    subst hm
    exact ⟨rfl, rfl⟩
  · unfold Events.MessageDelivered.from_json at h
    obtain ⟨mids, _, h⟩ := exceptBind_ok h
    obtain ⟨wm, _, h⟩ := exceptBind_ok h
    obtain ⟨seq, _, h⟩ := exceptBind_ok h
    have hm : e = ⟨uid, ts, wm, mids, seq⟩ := by
      simpa [pure, Except.pure] using h.symm
    subst hm
    exact ⟨rfl, rfl⟩
  · unfold Events.MessageRead.from_json at h
    obtain ⟨wm, _, h⟩ := exceptBind_ok h
    obtain ⟨seq, _, h⟩ := exceptBind_ok h
    have hm : e = ⟨uid, ts, wm, seq⟩ := by
      simpa [pure, Except.pure] using h.symm
    subst hm
    exact ⟨rfl, rfl⟩
  · unfold Events.Postback.from_json at h
    obtain ⟨ref, _, h⟩ := exceptBind_ok h
    obtain ⟨p, _, h⟩ := exceptBind_ok h
    have hm : e = ⟨uid, ts, p, ref⟩ := by
      simpa [pure, Except.pure] using h.symm
    subst hm
    exact ⟨rfl, rfl⟩
  · unfold Events.Referral.from_json at h
    obtain ⟨r, _, h⟩ := exceptBind_ok h
    have hm : e = ⟨uid, ts, r⟩ := by
      simpa [pure, Except.pure] using h.symm
    subst hm
    exact ⟨rfl, rfl⟩
  · unfold Events.OptIn.from_json at h
    obtain ⟨r, _, h⟩ := exceptBind_ok h
    have hm : e = ⟨uid, ts, r⟩ := by
      simpa [pure, Except.pure] using h.symm
    subst hm
    exact ⟨rfl, rfl⟩
  · unfold Events.AccountLink.from_json at h
    obtain ⟨status, _, h⟩ := exceptBind_ok h
    cases hsu : status.eqStr "unlinked" with
    | true =>
      rw [if_pos hsu] at h
      have hm : e = ⟨uid, ts, status, none⟩ := by
        simpa [pure, Except.pure] using h.symm
      subst hm
      exact ⟨rfl, rfl⟩
    | false =>
      rw [if_neg (by simp [hsu])] at h
      obtain ⟨code, _, h⟩ := exceptBind_ok h
      have hm : e = ⟨uid, ts, status, some code⟩ := by
        simpa [pure, Except.pure] using h.symm
      subst hm
      exact ⟨rfl, rfl⟩

/-- C10 witness: each of the seven variants decoded at a concrete payload
keeps the supplied user id 12 and timestamp 34. -/
theorem c10_decode_preserves_identity_witness :
    ((⟨12, Json.num 34, Json.str "hi", [], none, Json.str "m1", Json.num 5⟩ :
        Events.MessageReceived).user_id = 12 ∧
      (⟨12, Json.num 34, Json.str "hi", [], none, Json.str "m1", Json.num 5⟩ :
        Events.MessageReceived).timestamp = Json.num 34) ∧
    ((⟨12, Json.num 34, Json.num 111, Json.arr [], Json.num 30⟩ :
        Events.MessageDelivered).user_id = 12 ∧
      (⟨12, Json.num 34, Json.num 111, Json.arr [], Json.num 30⟩ :
        Events.MessageDelivered).timestamp = Json.num 34) ∧
    ((⟨12, Json.num 34, Json.num 111, Json.num 30⟩ :
        Events.MessageRead).user_id = 12 ∧
      (⟨12, Json.num 34, Json.num 111, Json.num 30⟩ :
        Events.MessageRead).timestamp = Json.num 34) ∧
    ((⟨12, Json.num 34, Json.str "pp", none⟩ : Events.Postback).user_id = 12 ∧
      (⟨12, Json.num 34, Json.str "pp", none⟩ :
        Events.Postback).timestamp = Json.num 34) ∧
    ((⟨12, Json.num 34, Json.str "rr"⟩ : Events.Referral).user_id = 12 ∧
      (⟨12, Json.num 34, Json.str "rr"⟩ :
        Events.Referral).timestamp = Json.num 34) ∧
    ((⟨12, Json.num 34, Json.str "oo"⟩ : Events.OptIn).user_id = 12 ∧
      (⟨12, Json.num 34, Json.str "oo"⟩ :
        Events.OptIn).timestamp = Json.num 34) ∧
    ((⟨12, Json.num 34, Json.str "unlinked", none⟩ :
        Events.AccountLink).user_id = 12 ∧
      (⟨12, Json.num 34, Json.str "unlinked", none⟩ :
        Events.AccountLink).timestamp = Json.num 34) :=
  ⟨(c10_decode_preserves_identity 12 (Json.num 34) c7_example).1 _ rfl,
   (c10_decode_preserves_identity 12 (Json.num 34)
     (Json.obj [("watermark", .num 111), ("seq", .num 30)])).2.1 _ rfl,
   (c10_decode_preserves_identity 12 (Json.num 34)
     (Json.obj [("watermark", .num 111), ("seq", .num 30)])).2.2.1 _ rfl,
   (c10_decode_preserves_identity 12 (Json.num 34)
     (Json.obj [("payload", .str "pp")])).2.2.2.1 _ rfl,
   (c10_decode_preserves_identity 12 (Json.num 34)
     (Json.obj [("ref", .str "rr")])).2.2.2.2.1 _ rfl,
   (c10_decode_preserves_identity 12 (Json.num 34)
     (Json.obj [("ref", .str "oo")])).2.2.2.2.2.1 _ rfl,
   (c10_decode_preserves_identity 12 (Json.num 34)
     (Json.obj [("status", .str "unlinked")])).2.2.2.2.2.2 _ rfl⟩

end Boomerang
